import Mathlib

/-!
Verification development for the distributed plan scheduler and session
manager of the repository (fusequery).

The plan data model and the `reschedule` algorithm are a shallow embedding
of the scheduler described in the design document; where the document and
the repository's own test suite (`plan_scheduler_test.rs`) pin different
behaviour, the tests' asserted behaviour is followed, since they are the
executable code of the repository.  The session-manager functions are a
direct embedding of `sessions.rs`.
-/

namespace FuseQuery

/-- Scatter expressions are threaded through uninterpreted by the scheduler.
The two shapes used by the repository's scheduler tests are a literal
unsigned value and a zero-argument scalar function. -/
inductive Expression where
  | literal (value : Nat)
  | scalarFunction (op : String)
deriving DecidableEq, Repr

/-- The three exchange topologies of a stage (`StageKind` in the source). -/
inductive StageKind where
  | normal
  | expansive
  | convergent
deriving DecidableEq, Repr

/-- Plan nodes relevant to scheduling (`PlanNode` in the source):
`empty` is `EmptyPlan` (with `isCluster = true` for `EmptyPlan::cluster()`),
`select` is `SelectPlan`, `stage` is `StagePlan { kind, scatters_expr, input }`
and `remote` is `RemotePlan { stream_id, fetch_nodes }`. -/
inductive PlanNode where
  | empty (isCluster : Bool)
  | select (input : PlanNode)
  | stage (kind : StageKind) (scattersExpr : Expression) (input : PlanNode)
  | remote (streamId : String) (fetchNodes : List String)
deriving DecidableEq, Repr

/-- Payload of a `PrepareShuffleAction` (fields `plan`, `sinks`,
`scatters_expression` in the source test file). -/
structure ShuffleAction where
  plan : PlanNode
  sinks : List String
  scattersExpression : Expression
deriving DecidableEq, Repr

/-- `FlightAction` of the source: either a shuffle preparation or a
broadcast.  The scheduler of this repository only emits shuffle actions. -/
inductive FlightAction where
  | prepareShuffleAction (action : ShuffleAction)
  | broadcastAction (plan : PlanNode) (sinks : List String)
deriving DecidableEq, Repr

/-- A read-only cluster topology snapshot: node names in their input order
plus the marked local node.  In the repository's tests the topology is
`["dummy_local", "dummy"]` with `"dummy_local"` local. -/
structure Topology where
  nodes : List String
  localNode : String
deriving DecidableEq, Repr

/-- Scheduling error taxonomy from the design document. -/
inductive SchedulerError where
  | topologyError (msg : String)
  | conflictingDispatchError (msg : String)
  | unresolvableLocalityError (msg : String)
deriving DecidableEq, Repr

/-- Intermediate result of resolving a subtree: `exec` is the set of nodes
(in topology order) the resolved subtree executes on, `frag` gives the
resolved fragment as specialised to one executing node, and `tasks` is the
accumulated list of dispatch pairs, innermost stage first. -/
structure Resolved where
  exec : List String
  frag : String → PlanNode
  tasks : List (String × FlightAction)

/-- Modelled from the spec: the target-set policy per `StageKind`
(`plan_scheduler.rs` is not among the sampled sources).  `normal` shuffles
back onto the source set, `expansive` fans out to every cluster node,
`convergent` funnels into the local node. -/
def targetNodes (topo : Topology) (kind : StageKind) (sources : List String) :
    List String :=
  match kind with
  | .normal => sources
  | .expansive => topo.nodes
  | .convergent => [topo.localNode]

/-- Modelled from the spec: the recursive bottom-up stage resolution of
`PlanScheduler` (`plan_scheduler.rs` is not among the sampled sources; the
behaviour is pinned by `plan_scheduler_test.rs`).  An `Empty{Cluster}` leaf
executes on every node, an `Empty{Local}` leaf on the local node only, and a
stage replaces itself with a per-target `Remote{stream_id := target,
fetch_nodes := sources}` read while appending one `PrepareShuffleAction` per
source node — including the local node, as the repository's tests assert. -/
def resolve (topo : Topology) : PlanNode → Except SchedulerError Resolved
  | .empty isCluster =>
    .ok { exec := if isCluster then topo.nodes else [topo.localNode]
          frag := fun _ => .empty isCluster
          tasks := [] }
  | .select input =>
    match resolve topo input with
    | .error e => .error e
    | .ok r =>
      .ok { exec := r.exec
            frag := fun n => .select (r.frag n)
            tasks := r.tasks }
  | .remote streamId fetchNodes =>
    .ok { exec := [streamId]
          frag := fun _ => .remote streamId fetchNodes
          tasks := [] }
  | .stage kind scattersExpr input =>
    match resolve topo input with
    | .error e => .error e
    | .ok r =>
      if topo.nodes.isEmpty then
        .error (.topologyError "empty cluster topology")
      else
        .ok { exec := targetNodes topo kind r.exec
              frag := fun t => .remote t r.exec
              tasks := r.tasks ++ r.exec.map fun n =>
                (n, .prepareShuffleAction
                      { plan := r.frag n
                        sinks := targetNodes topo kind r.exec
                        scattersExpression := scattersExpr }) }

/-- The output of one scheduling call: the local fragment and the dispatch
list as `get_tasks()` returns it (grouped by node in topology order, each
node's actions innermost stage first). -/
structure ScheduledTasks where
  localTask : PlanNode
  tasks : List (String × FlightAction)
deriving DecidableEq, Repr

/-- Modelled from the spec: grouping of the accumulated dispatch pairs as
performed by `get_tasks()` — nodes in topology input order, each node's
actions in the order they were produced. -/
def groupTasks (ts : List (String × FlightAction)) :
    List String → List (String × FlightAction)
  | [] => []
  | n :: rest => (ts.filter fun t => t.1 = n) ++ groupTasks ts rest

/-- Modelled from the spec: `PlanScheduler::reschedule`
(`plan_scheduler.rs` is not among the sampled sources).  Resolves every
stage bottom-up and returns the local fragment together with the grouped
dispatch list. -/
def reschedule (topo : Topology) (plan : PlanNode) :
    Except SchedulerError ScheduledTasks :=
  match resolve topo plan with
  | .error e => .error e
  | .ok r =>
    .ok { localTask := r.frag topo.localNode
          tasks := groupTasks r.tasks topo.nodes }

/-- The two-node topology used throughout the repository's scheduler tests. -/
def testTopology : Topology :=
  { nodes := ["dummy_local", "dummy"], localNode := "dummy_local" }

/-- `true` iff the plan tree contains no `Stage` node. -/
def noStage : PlanNode → Bool
  | .empty _ => true
  | .select input => noStage input
  | .stage _ _ _ => false
  | .remote _ _ => true

/-- `true` iff the plan tree contains no `Remote` node (a raw input plan,
before scheduling, never contains one: `Remote` is scheduler output). -/
def noRemote : PlanNode → Bool
  | .empty _ => true
  | .select input => noRemote input
  | .stage _ _ input => noRemote input
  | .remote _ _ => false

/-- The plan carried by a dispatch action. -/
def actionPlan : FlightAction → PlanNode
  | .prepareShuffleAction a => a.plan
  | .broadcastAction p _ => p

/-- The sink list carried by a dispatch action. -/
def actionSinks : FlightAction → List String
  | .prepareShuffleAction a => a.sinks
  | .broadcastAction _ s => s

/-- All `fetch_nodes` lists of the `Remote` nodes of a plan tree. -/
def planFetchLists : PlanNode → List (List String)
  | .empty _ => []
  | .select input => planFetchLists input
  | .stage _ _ input => planFetchLists input
  | .remote _ fetchNodes => [fetchNodes]

/-- Every ordering-sensitive node list carried by a dispatch action: its
sink list and every `fetch_nodes` list inside its plan. -/
def actionNodeLists (a : FlightAction) : List (List String) :=
  actionSinks a :: planFetchLists (actionPlan a)

/-- Every ordering-sensitive node list carried by a dispatch list. -/
def tasksNodeLists : List (String × FlightAction) → List (List String)
  | [] => []
  | x :: rest => actionNodeLists x.2 ++ tasksNodeLists rest

lemma groupTasks_nil : ∀ ns : List String, groupTasks [] ns = []
  | [] => rfl
  | _ :: rest => by simp [groupTasks, groupTasks_nil rest]

lemma mem_groupTasks (x : String × FlightAction) (ts : List (String × FlightAction)) :
    ∀ ns : List String, x ∈ groupTasks ts ns ↔ x ∈ ts ∧ x.1 ∈ ns := by
  intro ns
  induction ns with
  | nil => simp [groupTasks]
  | cons n rest ih =>
    simp only [groupTasks, List.mem_append, List.mem_filter, ih, List.mem_cons,
      decide_eq_true_eq]
    tauto

lemma resolve_select_ok (topo : Topology) (input : PlanNode) (r : Resolved)
    (h : resolve topo (.select input) = .ok r) :
    ∃ ri, resolve topo input = .ok ri ∧
      r = { exec := ri.exec, frag := fun n => .select (ri.frag n), tasks := ri.tasks } := by
  cases hri : resolve topo input with
  | error e => rw [resolve, hri] at h; cases h
  | ok ri =>
    rw [resolve, hri] at h
    exact ⟨ri, rfl, (Except.ok.inj h).symm⟩

lemma resolve_stage_ok (topo : Topology) (kind : StageKind) (e : Expression)
    (input : PlanNode) (r : Resolved)
    (h : resolve topo (.stage kind e input) = .ok r) :
    ∃ ri, resolve topo input = .ok ri ∧ topo.nodes.isEmpty = false ∧
      r = { exec := targetNodes topo kind ri.exec
            frag := fun t => .remote t ri.exec
            tasks := ri.tasks ++ ri.exec.map fun n =>
              (n, .prepareShuffleAction
                    { plan := ri.frag n
                      sinks := targetNodes topo kind ri.exec
                      scattersExpression := e }) } := by
  cases hri : resolve topo input with
  | error e2 => rw [resolve, hri] at h; cases h
  | ok ri =>
    rw [resolve, hri] at h
    cases hempty : topo.nodes.isEmpty with
    | true => rw [hempty] at h; simp at h
    | false =>
      rw [hempty] at h
      simp only [Bool.false_eq_true, if_false] at h
      exact ⟨ri, rfl, rfl, (Except.ok.inj h).symm⟩

lemma reschedule_ok (topo : Topology) (plan : PlanNode) (st : ScheduledTasks)
    (h : reschedule topo plan = .ok st) :
    ∃ r, resolve topo plan = .ok r ∧
      st = { localTask := r.frag topo.localNode
             tasks := groupTasks r.tasks topo.nodes } := by
  cases hr : resolve topo plan with
  | error e => rw [reschedule, hr] at h; cases h
  | ok r =>
    rw [reschedule, hr] at h
    exact ⟨r, rfl, (Except.ok.inj h).symm⟩

lemma resolve_of_noStage (topo : Topology) :
    ∀ p : PlanNode, noStage p = true →
      ∃ ex, resolve topo p = .ok { exec := ex, frag := fun _ => p, tasks := [] } := by
  intro p
  induction p with
  | empty isCluster => exact fun _ => ⟨_, rfl⟩
  | select input ih =>
    intro h
    obtain ⟨ex, hex⟩ := ih (by simpa [noStage] using h)
    exact ⟨ex, by rw [resolve, hex]⟩
  | stage kind e input ih => intro h; simp [noStage] at h
  | remote streamId fetchNodes => exact fun _ => ⟨_, rfl⟩

lemma resolve_output_noStage (topo : Topology) :
    ∀ (p : PlanNode) (r : Resolved), resolve topo p = .ok r →
      (∀ n, noStage (r.frag n) = true) ∧
      ∀ x ∈ r.tasks, noStage (actionPlan x.2) = true := by
  intro p
  induction p with
  | empty isCluster =>
    intro r h
    cases Except.ok.inj h
    exact ⟨fun _ => rfl, by simp⟩
  | select input ih =>
    intro r h
    obtain ⟨ri, hri, rfl⟩ := resolve_select_ok topo input r h
    exact ⟨fun n => (ih ri hri).1 n, (ih ri hri).2⟩
  | stage kind e input ih =>
    intro r h
    obtain ⟨ri, hri, _, rfl⟩ := resolve_stage_ok topo kind e input r h
    refine ⟨fun _ => rfl, ?_⟩
    intro x hx
    rcases List.mem_append.1 hx with hx | hx
    · exact (ih ri hri).2 x hx
    · obtain ⟨n, _, rfl⟩ := List.mem_map.1 hx
      exact (ih ri hri).1 n
  | remote streamId fetchNodes =>
    intro r h
    cases Except.ok.inj h
    exact ⟨fun _ => rfl, by simp⟩

lemma targetNodes_sublist (topo : Topology) (kind : StageKind) (sources : List String)
    (hl : topo.localNode ∈ topo.nodes) (hs : sources.Sublist topo.nodes) :
    (targetNodes topo kind sources).Sublist topo.nodes := by
  cases kind with
  | normal => exact hs
  | expansive => exact List.Sublist.refl _
  | convergent => exact List.singleton_sublist.mpr hl

lemma resolve_node_lists_sublist (topo : Topology) (hl : topo.localNode ∈ topo.nodes) :
    ∀ p : PlanNode, noRemote p = true →
      ∀ r : Resolved, resolve topo p = .ok r →
        r.exec.Sublist topo.nodes ∧
        (∀ n, ∀ l ∈ planFetchLists (r.frag n), l.Sublist topo.nodes) ∧
        ∀ x ∈ r.tasks, ∀ l ∈ actionNodeLists x.2, l.Sublist topo.nodes := by
  intro p
  induction p with
  | empty isCluster =>
    intro _ r h
    cases Except.ok.inj h
    refine ⟨?_, by simp [planFetchLists], by simp⟩
    cases isCluster with
    | true => simp
    | false => simpa [List.singleton_sublist] using hl
  | select input ih =>
    intro hnr r h
    obtain ⟨ri, hri, rfl⟩ := resolve_select_ok topo input r h
    obtain ⟨h1, h2, h3⟩ := ih (by simpa [noRemote] using hnr) ri hri
    exact ⟨h1, fun n => by simpa [planFetchLists] using h2 n, h3⟩
  | stage kind e input ih =>
    intro hnr r h
    obtain ⟨ri, hri, _, rfl⟩ := resolve_stage_ok topo kind e input r h
    obtain ⟨h1, h2, h3⟩ := ih (by simpa [noRemote] using hnr) ri hri
    refine ⟨targetNodes_sublist topo kind ri.exec hl h1, ?_, ?_⟩
    · intro n l hlmem
      simp only [planFetchLists, List.mem_singleton] at hlmem
      exact hlmem ▸ h1
    · intro x hx
      rcases List.mem_append.1 hx with hx | hx
      · exact h3 x hx
      · obtain ⟨n, _, rfl⟩ := List.mem_map.1 hx
        intro l hlmem
        simp only [actionNodeLists, actionSinks, actionPlan, List.mem_cons] at hlmem
        rcases hlmem with rfl | hlmem
        · exact targetNodes_sublist topo kind ri.exec hl h1
        · exact h2 n l hlmem
  | remote streamId fetchNodes => intro hnr; simp [noRemote] at hnr

lemma mem_tasksNodeLists (l : List String) :
    ∀ ts : List (String × FlightAction), l ∈ tasksNodeLists ts →
      ∃ x, x ∈ ts ∧ l ∈ actionNodeLists x.2 := by
  intro ts
  induction ts with
  | nil => simp [tasksNodeLists]
  | cons x rest ih =>
    intro h
    rcases List.mem_append.1 h with h | h
    · exact ⟨x, List.mem_cons_self x rest, h⟩
    · obtain ⟨y, hy, hl⟩ := ih h
      exact ⟨y, List.mem_cons_of_mem x hy, hl⟩

/-- `ErrorCode` variants used by `sessions.rs`. -/
inductive ErrorCode where
  | tooManyUserConnections (msg : String)
  | abortedSession (msg : String)
  | unImplement (msg : String)
deriving DecidableEq, Repr

/-- A session as far as `SessionManager` observes it: its identifier.
(`Session::try_create` stores the configuration and the given id; only the
id is consulted by the manager, via `get_id`.) -/
structure Session where
  id : String
deriving DecidableEq, Repr

/-- `SessionRef::create(typ, session)` from the source. -/
structure SessionRef where
  typ : String
  session : Session
deriving DecidableEq, Repr

/-- A cluster executor as exposed by the (unimplemented) executor
interface of `SessionManager`. -/
structure ClusterExecutor where
  name : String
deriving DecidableEq, Repr

/-- The state of `SessionManager` relevant to session creation: the
`max_sessions` bound and the `active_sessions` map, embedded as an
association list keyed by session id. -/
structure SessionManager where
  maxSessions : Nat
  activeSessions : List (String × Session)
deriving DecidableEq, Repr

/-- `HashMap::insert`: replaces the value of an existing key, otherwise
adds a new entry. -/
def insertSession : List (String × Session) → String → Session → List (String × Session)
  | [], k, v => [(k, v)]
  | (k', v') :: rest, k, v =>
    if k' = k then (k, v) :: rest else (k', v') :: insertSession rest k v

/-- `SessionManager::create_session` from `sessions.rs`: refuses with
`TooManyUserConnections` when the active-session count equals
`max_sessions`, otherwise creates a session under the freshly generated
UUID `freshId`, inserts it and returns a `SessionRef`.  The returned
manager is the post-call state of the mutated `active_sessions` map. -/
def createSession (mgr : SessionManager) (freshId : String) (typ : String) :
    SessionManager × Except ErrorCode SessionRef :=
  if mgr.activeSessions.length = mgr.maxSessions then
    (mgr, .error (.tooManyUserConnections
      "The current accept connection has exceeded mysql_handler_thread_num config"))
  else
    ({ mgr with activeSessions := insertSession mgr.activeSessions freshId { id := freshId } },
     .ok { typ := typ, session := { id := freshId } })

/-- `SessionManager::try_get_executors` from `sessions.rs`. -/
def tryGetExecutors (_mgr : SessionManager) : Except ErrorCode (List ClusterExecutor) :=
  .error (.unImplement "")

/-- `SessionManager::register_executor` from `sessions.rs`. -/
def registerExecutor (_mgr : SessionManager) : Except ErrorCode Unit :=
  .error (.unImplement "")

/-- `SessionManager::unregister_executor` from `sessions.rs`. -/
def unregisterExecutor (_mgr : SessionManager) : Except ErrorCode Unit :=
  .error (.unImplement "")

lemma insertSession_fresh (k : String) (v : Session) :
    ∀ m : List (String × Session), k ∉ m.map Prod.fst →
      insertSession m k v = m ++ [(k, v)] := by
  intro m
  induction m with
  | nil => intro _; rfl
  | cons x rest ih =>
    intro h
    simp only [List.map_cons, List.mem_cons] at h
    push_neg at h
    obtain ⟨x1, x2⟩ := x
    rw [insertSession, if_neg (fun e => h.1 (e.symm)), ih h.2]
    rfl

/-- The root convergent-stage plan of
`test_scheduler_plan_with_one_convergent_stage`. -/
def convergentTestPlan : PlanNode := .stage .convergent (.literal 0) (.empty true)

/-- The scheduling result of `convergentTestPlan` on `testTopology`, as
asserted by `test_scheduler_plan_with_one_convergent_stage`. -/
def convergentTestTasks : ScheduledTasks :=
  { localTask := .remote "dummy_local" ["dummy_local", "dummy"]
    tasks := [
      ("dummy_local", .prepareShuffleAction
        { plan := .empty true, sinks := ["dummy_local"], scattersExpression := .literal 0 }),
      ("dummy", .prepareShuffleAction
        { plan := .empty true, sinks := ["dummy_local"], scattersExpression := .literal 0 })] }

/-- The convergent-over-normal plan of
`test_scheduler_plan_with_convergent_and_normal_stage`. -/
def stackedTestPlan : PlanNode :=
  .select (.stage .convergent (.literal 1)
    (.select (.stage .normal (.literal 0) (.empty true))))

/-- The scheduling result of `stackedTestPlan` on `testTopology`, as
asserted by `test_scheduler_plan_with_convergent_and_normal_stage`: each
of the two nodes receives two dispatch actions. -/
def stackedTestTasks : ScheduledTasks :=
  { localTask := .select (.remote "dummy_local" ["dummy_local", "dummy"])
    tasks := [
      ("dummy_local", .prepareShuffleAction
        { plan := .empty true, sinks := ["dummy_local", "dummy"],
          scattersExpression := .literal 0 }),
      ("dummy_local", .prepareShuffleAction
        { plan := .select (.remote "dummy_local" ["dummy_local", "dummy"]),
          sinks := ["dummy_local"], scattersExpression := .literal 1 }),
      ("dummy", .prepareShuffleAction
        { plan := .empty true, sinks := ["dummy_local", "dummy"],
          scattersExpression := .literal 0 }),
      ("dummy", .prepareShuffleAction
        { plan := .select (.remote "dummy" ["dummy_local", "dummy"]),
          sinks := ["dummy_local"], scattersExpression := .literal 1 })] }

/-- C7: for every plan tree containing no `Stage` node, `reschedule`
succeeds, returns an empty tasks list, and returns the input plan as the
local task unchanged. -/
theorem reschedule_stage_free_identity (topo : Topology) (plan : PlanNode)
    (h : noStage plan = true) :
    reschedule topo plan = .ok { localTask := plan, tasks := [] } := by
  obtain ⟨ex, hre⟩ := resolve_of_noStage topo plan h
  simp [reschedule, hre, groupTasks_nil]

/-- Witness for C7 at a concrete stage-free plan. -/
theorem reschedule_stage_free_identity_witness :
    noStage (PlanNode.select (.empty false)) = true ∧
    reschedule testTopology (.select (.empty false)) =
      .ok { localTask := .select (.empty false), tasks := [] } :=
  ⟨rfl, reschedule_stage_free_identity testTopology (.select (.empty false)) rfl⟩

/-- C2: whenever `reschedule` succeeds, no `Stage` node occurs in the
local task nor in the plan of any dispatch action of the tasks list. -/
theorem reschedule_leaves_no_stage (topo : Topology) (plan : PlanNode)
    (st : ScheduledTasks) (h : reschedule topo plan = .ok st) :
    noStage st.localTask = true ∧ ∀ x ∈ st.tasks, noStage (actionPlan x.2) = true := by
  obtain ⟨r, hr, rfl⟩ := reschedule_ok topo plan st h
  obtain ⟨h1, h2⟩ := resolve_output_noStage topo plan r hr
  exact ⟨h1 _, fun x hx => h2 x ((mem_groupTasks x r.tasks topo.nodes).1 hx).1⟩

/-- Witness for C2 at the convergent-stage test plan. -/
theorem reschedule_leaves_no_stage_witness :
    noStage convergentTestTasks.localTask = true ∧
    noStage (actionPlan (FlightAction.prepareShuffleAction
      { plan := .empty true, sinks := ["dummy_local"],
        scattersExpression := .literal 0 })) = true :=
  ⟨(reschedule_leaves_no_stage testTopology convergentTestPlan convergentTestTasks rfl).1,
   (reschedule_leaves_no_stage testTopology convergentTestPlan convergentTestTasks rfl).2
     ("dummy_local", FlightAction.prepareShuffleAction
       { plan := .empty true, sinks := ["dummy_local"],
         scattersExpression := .literal 0 })
     (by decide)⟩

/-- C5: resolving a stage whose input resolved to source set `S` yields
target set `targetNodes` and, for every execution context `t`, a
continuing fragment `Remote{stream_id := t, fetch_nodes := S}`. -/
theorem stage_remote_addressing (topo : Topology) (kind : StageKind)
    (e : Expression) (input : PlanNode) (ri r : Resolved) (t : String)
    (hi : resolve topo input = .ok ri)
    (h : resolve topo (.stage kind e input) = .ok r) :
    r.exec = targetNodes topo kind ri.exec ∧ r.frag t = .remote t ri.exec := by
  obtain ⟨ri2, hi2, _, rfl⟩ := resolve_stage_ok topo kind e input r h
  rw [hi] at hi2
  cases Except.ok.inj hi2
  exact ⟨rfl, rfl⟩

/-- Witness for C5 at the convergent stage over `Empty{Cluster}`. -/
theorem stage_remote_addressing_witness :
    (Resolved.exec
        { exec := ["dummy_local"]
          frag := fun t => .remote t ["dummy_local", "dummy"]
          tasks := [
            ("dummy_local", .prepareShuffleAction
              { plan := .empty true, sinks := ["dummy_local"],
                scattersExpression := .literal 0 }),
            ("dummy", .prepareShuffleAction
              { plan := .empty true, sinks := ["dummy_local"],
                scattersExpression := .literal 0 })] } =
      targetNodes testTopology .convergent ["dummy_local", "dummy"]) ∧
    Resolved.frag
        { exec := ["dummy_local"]
          frag := fun t => .remote t ["dummy_local", "dummy"]
          tasks := [
            ("dummy_local", .prepareShuffleAction
              { plan := .empty true, sinks := ["dummy_local"],
                scattersExpression := .literal 0 }),
            ("dummy", .prepareShuffleAction
              { plan := .empty true, sinks := ["dummy_local"],
                scattersExpression := .literal 0 })] } "dummy" =
      .remote "dummy" ["dummy_local", "dummy"] :=
  stage_remote_addressing testTopology .convergent (.literal 0) (.empty true)
    { exec := ["dummy_local", "dummy"], frag := fun _ => .empty true, tasks := [] }
    { exec := ["dummy_local"]
      frag := fun t => .remote t ["dummy_local", "dummy"]
      tasks := [
        ("dummy_local", .prepareShuffleAction
          { plan := .empty true, sinks := ["dummy_local"],
            scattersExpression := .literal 0 }),
        ("dummy", .prepareShuffleAction
          { plan := .empty true, sinks := ["dummy_local"],
            scattersExpression := .literal 0 })] }
    "dummy" rfl rfl

/-- C10: the executor interface of `SessionManager` returns `UnImplement`
on every call, in every manager state. -/
theorem executor_interface_unimplemented (mgr : SessionManager) :
    tryGetExecutors mgr = .error (.unImplement "") ∧
    registerExecutor mgr = .error (.unImplement "") ∧
    unregisterExecutor mgr = .error (.unImplement "") :=
  ⟨rfl, rfl, rfl⟩

/-- C4: a root `Stage{Convergent, literal 0, Empty{Cluster}}` over a
two-node topology `{a (local), b}` yields exactly two source computations,
each a `PrepareShuffleAction` with `sinks = [a]` whose plan is the resolved
`Empty{Cluster}` input, and the local task `Remote{stream_id := a,
fetch_nodes := [a, b]}`. -/
theorem convergent_funnel_schedule (a b : String) (hab : a ≠ b) :
    reschedule { nodes := [a, b], localNode := a }
        (.stage .convergent (.literal 0) (.empty true)) =
      .ok { localTask := .remote a [a, b]
            tasks := [
              (a, .prepareShuffleAction
                { plan := .empty true, sinks := [a], scattersExpression := .literal 0 }),
              (b, .prepareShuffleAction
                { plan := .empty true, sinks := [a], scattersExpression := .literal 0 })] } := by
  have h1 : reschedule { nodes := [a, b], localNode := a }
      (.stage .convergent (.literal 0) (.empty true)) =
    .ok { localTask := .remote a [a, b]
          tasks := groupTasks [
            (a, .prepareShuffleAction
              { plan := .empty true, sinks := [a], scattersExpression := .literal 0 }),
            (b, .prepareShuffleAction
              { plan := .empty true, sinks := [a], scattersExpression := .literal 0 })]
            [a, b] } := rfl
  rw [h1]
  have h2 : groupTasks [
      (a, FlightAction.prepareShuffleAction
        { plan := .empty true, sinks := [a], scattersExpression := .literal 0 }),
      (b, FlightAction.prepareShuffleAction
        { plan := .empty true, sinks := [a], scattersExpression := .literal 0 })]
      [a, b] = [
      (a, FlightAction.prepareShuffleAction
        { plan := .empty true, sinks := [a], scattersExpression := .literal 0 }),
      (b, FlightAction.prepareShuffleAction
        { plan := .empty true, sinks := [a], scattersExpression := .literal 0 })] := by
    simp [groupTasks, List.filter_cons, List.filter_nil, hab, Ne.symm hab]
  rw [h2]

/-- Witness for C4 at the test topology's node names. -/
theorem convergent_funnel_schedule_witness :
    ("dummy_local" : String) ≠ "dummy" ∧
    reschedule { nodes := ["dummy_local", "dummy"], localNode := "dummy_local" }
        (.stage .convergent (.literal 0) (.empty true)) =
      .ok { localTask := .remote "dummy_local" ["dummy_local", "dummy"]
            tasks := [
              ("dummy_local", .prepareShuffleAction
                { plan := .empty true, sinks := ["dummy_local"],
                  scattersExpression := .literal 0 }),
              ("dummy", .prepareShuffleAction
                { plan := .empty true, sinks := ["dummy_local"],
                  scattersExpression := .literal 0 })] } :=
  ⟨by decide, convergent_funnel_schedule "dummy_local" "dummy" (by decide)⟩

/-- C3: an outer `Convergent` stage wrapping an inner `Expansive` stage
over a two-node topology `{a (local), b}` resolves innermost-first, the
outer stage's sources being the inner stage's targets: exactly 3 dispatch
actions in total, the final local fragment reading
`Remote{fetch_nodes := [a, b]}`. -/
theorem nested_convergent_expansive_schedule (a b : String) (e1 e2 : Expression)
    (hab : a ≠ b) :
    reschedule { nodes := [a, b], localNode := a }
        (.select (.stage .convergent e1
          (.select (.stage .expansive e2 (.empty false))))) =
      .ok { localTask := .select (.remote a [a, b])
            tasks := [
              (a, .prepareShuffleAction
                { plan := .empty false, sinks := [a, b], scattersExpression := e2 }),
              (a, .prepareShuffleAction
                { plan := .select (.remote a [a]), sinks := [a],
                  scattersExpression := e1 }),
              (b, .prepareShuffleAction
                { plan := .select (.remote b [a]), sinks := [a],
                  scattersExpression := e1 })] } := by
  have h1 : reschedule { nodes := [a, b], localNode := a }
      (.select (.stage .convergent e1
        (.select (.stage .expansive e2 (.empty false))))) =
    .ok { localTask := .select (.remote a [a, b])
          tasks := groupTasks [
            (a, .prepareShuffleAction
              { plan := .empty false, sinks := [a, b], scattersExpression := e2 }),
            (a, .prepareShuffleAction
              { plan := .select (.remote a [a]), sinks := [a],
                scattersExpression := e1 }),
            (b, .prepareShuffleAction
              { plan := .select (.remote b [a]), sinks := [a],
                scattersExpression := e1 })] [a, b] } := rfl
  rw [h1]
  have h2 : groupTasks [
      (a, FlightAction.prepareShuffleAction
        { plan := .empty false, sinks := [a, b], scattersExpression := e2 }),
      (a, FlightAction.prepareShuffleAction
        { plan := .select (.remote a [a]), sinks := [a], scattersExpression := e1 }),
      (b, FlightAction.prepareShuffleAction
        { plan := .select (.remote b [a]), sinks := [a], scattersExpression := e1 })]
      [a, b] = [
      (a, FlightAction.prepareShuffleAction
        { plan := .empty false, sinks := [a, b], scattersExpression := e2 }),
      (a, FlightAction.prepareShuffleAction
        { plan := .select (.remote a [a]), sinks := [a], scattersExpression := e1 }),
      (b, FlightAction.prepareShuffleAction
        { plan := .select (.remote b [a]), sinks := [a], scattersExpression := e1 })] := by
    simp [groupTasks, List.filter_cons, List.filter_nil, hab, Ne.symm hab]
  rw [h2]

/-- Witness for C3 at the test topology's node names and the test's
scatter expressions. -/
theorem nested_convergent_expansive_schedule_witness :
    ("dummy_local" : String) ≠ "dummy" ∧
    reschedule { nodes := ["dummy_local", "dummy"], localNode := "dummy_local" }
        (.select (.stage .convergent (.literal 0)
          (.select (.stage .expansive (.scalarFunction "blockNumber") (.empty false))))) =
      .ok { localTask := .select (.remote "dummy_local" ["dummy_local", "dummy"])
            tasks := [
              ("dummy_local", .prepareShuffleAction
                { plan := .empty false, sinks := ["dummy_local", "dummy"],
                  scattersExpression := .scalarFunction "blockNumber" }),
              ("dummy_local", .prepareShuffleAction
                { plan := .select (.remote "dummy_local" ["dummy_local"]),
                  sinks := ["dummy_local"], scattersExpression := .literal 0 }),
              ("dummy", .prepareShuffleAction
                { plan := .select (.remote "dummy" ["dummy_local"]),
                  sinks := ["dummy_local"], scattersExpression := .literal 0 })] } :=
  ⟨by decide, nested_convergent_expansive_schedule "dummy_local" "dummy"
    (.literal 0) (.scalarFunction "blockNumber") (by decide)⟩

/-- C1 counterexample: on the convergent-stage test plan the tasks list of
a successful `reschedule` contains an entry keyed by the local node
(`"dummy_local"`), so the tasks list is not keyed only by remote node
names and the local source's `PrepareShuffleAction` is not folded away. -/
theorem local_node_task_entry_counterexample :
    reschedule testTopology convergentTestPlan = .ok convergentTestTasks ∧
    (testTopology.localNode, FlightAction.prepareShuffleAction
        { plan := .empty true, sinks := ["dummy_local"], scattersExpression := .literal 0 })
      ∈ convergentTestTasks.tasks :=
  ⟨rfl, by decide⟩

/-- C1 (amended): for every stage over a cluster-scoped input, the tasks
list of a successful `reschedule` records a `PrepareShuffleAction` entry
for the local node too — the local source computation appears in the tasks
list rather than being folded into the local fragment. -/
theorem reschedule_records_local_source (topo : Topology) (kind : StageKind)
    (e : Expression) (st : ScheduledTasks)
    (hl : topo.localNode ∈ topo.nodes)
    (h : reschedule topo (.stage kind e (.empty true)) = .ok st) :
    (topo.localNode, FlightAction.prepareShuffleAction
        { plan := .empty true, sinks := targetNodes topo kind topo.nodes,
          scattersExpression := e }) ∈ st.tasks := by
  have hne : topo.nodes.isEmpty = false := by
    cases hn : topo.nodes with
    | nil => rw [hn] at hl; cases hl
    | cons x xs => rfl
  have hres : resolve topo (.stage kind e (.empty true)) =
      .ok { exec := targetNodes topo kind topo.nodes
            frag := fun t => .remote t topo.nodes
            tasks := topo.nodes.map fun n =>
              (n, FlightAction.prepareShuffleAction
                { plan := .empty true, sinks := targetNodes topo kind topo.nodes,
                  scattersExpression := e }) } := by
    simp [resolve, hne]
  obtain ⟨r, hr, rfl⟩ := reschedule_ok topo _ st h
  rw [hres] at hr
  cases Except.ok.inj hr
  exact (mem_groupTasks _ _ _).2 ⟨List.mem_map.2 ⟨topo.localNode, hl, rfl⟩, hl⟩

/-- Witness for the amended C1 at the convergent-stage test plan. -/
theorem reschedule_records_local_source_witness :
    ("dummy_local" : String) ∈ ["dummy_local", "dummy"] ∧
    ("dummy_local", FlightAction.prepareShuffleAction
        { plan := .empty true, sinks := ["dummy_local"], scattersExpression := .literal 0 })
      ∈ convergentTestTasks.tasks :=
  ⟨by decide, reschedule_records_local_source testTopology .convergent (.literal 0)
    convergentTestTasks (by decide) rfl⟩

/-- C8 counterexample: on the convergent-over-normal test plan every node
already holds a dispatch entry when the outer stage records its second
one, yet `reschedule` succeeds with both entries kept per node (no
`ConflictingDispatchError`). -/
theorem duplicate_dispatch_counterexample :
    reschedule testTopology stackedTestPlan = .ok stackedTestTasks ∧
    (stackedTestTasks.tasks.filter fun x => x.1 = "dummy").length = 2 ∧
    (stackedTestTasks.tasks.filter fun x => x.1 = "dummy_local").length = 2 :=
  ⟨rfl, by decide, by decide⟩

/-- C8 (amended): a node receives one dispatch action per stage in which
it is a source node; when two nested stages share a source node,
`reschedule` succeeds and the tasks list keeps both of that node's
actions instead of failing. -/
theorem node_receives_action_per_stage (topo : Topology) (e1 e2 : Expression)
    (n : String) (st : ScheduledTasks)
    (hl : topo.localNode ∈ topo.nodes) (hn : n ∈ topo.nodes)
    (h : reschedule topo
        (.stage .convergent e1 (.stage .normal e2 (.empty true))) = .ok st) :
    (n, FlightAction.prepareShuffleAction
        { plan := .empty true, sinks := topo.nodes, scattersExpression := e2 })
      ∈ st.tasks ∧
    (n, FlightAction.prepareShuffleAction
        { plan := .remote n topo.nodes, sinks := [topo.localNode],
          scattersExpression := e1 }) ∈ st.tasks := by
  have hne : topo.nodes.isEmpty = false := by
    cases hnn : topo.nodes with
    | nil => rw [hnn] at hl; cases hl
    | cons x xs => rfl
  have hres : resolve topo (.stage .convergent e1 (.stage .normal e2 (.empty true))) =
      .ok { exec := [topo.localNode]
            frag := fun t => .remote t topo.nodes
            tasks := (topo.nodes.map fun m =>
                (m, FlightAction.prepareShuffleAction
                  { plan := .empty true, sinks := topo.nodes,
                    scattersExpression := e2 })) ++
              topo.nodes.map fun m =>
                (m, FlightAction.prepareShuffleAction
                  { plan := .remote m topo.nodes, sinks := [topo.localNode],
                    scattersExpression := e1 }) } := by
    simp [resolve, hne, targetNodes]
  obtain ⟨r, hr, rfl⟩ := reschedule_ok topo _ st h
  rw [hres] at hr
  cases Except.ok.inj hr
  constructor
  · exact (mem_groupTasks _ _ _).2
      ⟨List.mem_append.2 (Or.inl (List.mem_map.2 ⟨n, hn, rfl⟩)), hn⟩
  · exact (mem_groupTasks _ _ _).2
      ⟨List.mem_append.2 (Or.inr (List.mem_map.2 ⟨n, hn, rfl⟩)), hn⟩

/-- The scheduling result of the bare convergent-over-normal stage pair on
`testTopology`: two actions per node, innermost stage first. -/
def bareStackedTasks : ScheduledTasks :=
  { localTask := .remote "dummy_local" ["dummy_local", "dummy"]
    tasks := [
      ("dummy_local", .prepareShuffleAction
        { plan := .empty true, sinks := ["dummy_local", "dummy"],
          scattersExpression := .literal 0 }),
      ("dummy_local", .prepareShuffleAction
        { plan := .remote "dummy_local" ["dummy_local", "dummy"],
          sinks := ["dummy_local"], scattersExpression := .literal 1 }),
      ("dummy", .prepareShuffleAction
        { plan := .empty true, sinks := ["dummy_local", "dummy"],
          scattersExpression := .literal 0 }),
      ("dummy", .prepareShuffleAction
        { plan := .remote "dummy" ["dummy_local", "dummy"],
          sinks := ["dummy_local"], scattersExpression := .literal 1 })] }

/-- Witness for the amended C8: node `"dummy"` holds both its inner-stage
and its outer-stage action. -/
theorem node_receives_action_per_stage_witness :
    ("dummy", FlightAction.prepareShuffleAction
        { plan := .empty true, sinks := ["dummy_local", "dummy"],
          scattersExpression := .literal 0 }) ∈ bareStackedTasks.tasks ∧
    ("dummy", FlightAction.prepareShuffleAction
        { plan := .remote "dummy" ["dummy_local", "dummy"],
          sinks := ["dummy_local"], scattersExpression := .literal 1 })
      ∈ bareStackedTasks.tasks :=
  node_receives_action_per_stage testTopology (.literal 1) (.literal 0) "dummy"
    bareStackedTasks (by decide) (by decide) rfl

/-- C6: `reschedule` is deterministic — two invocations on the same plan
and the same topology snapshot return the same output — and every
ordering-sensitive node list it emits (every action's sinks, every
`fetch_nodes` of a `Remote`) is a sublist of the topology's nodes in their
input order. -/
theorem reschedule_deterministic_ordered (topo : Topology) (plan : PlanNode)
    (st1 st2 : ScheduledTasks) (l : List String)
    (hl : topo.localNode ∈ topo.nodes) (hr : noRemote plan = true)
    (h1 : reschedule topo plan = .ok st1) (h2 : reschedule topo plan = .ok st2)
    (hmem : l ∈ planFetchLists st1.localTask ++ tasksNodeLists st1.tasks) :
    st1 = st2 ∧ l.Sublist topo.nodes := by
  refine ⟨by rw [h1] at h2; exact Except.ok.inj h2, ?_⟩
  obtain ⟨r, hrr, rfl⟩ := reschedule_ok topo plan st1 h1
  obtain ⟨_, hfrag, htasks⟩ := resolve_node_lists_sublist topo hl plan hr r hrr
  rcases List.mem_append.1 hmem with hm | hm
  · exact hfrag topo.localNode l hm
  · obtain ⟨x, hx, hlx⟩ := mem_tasksNodeLists l _ hm
    exact htasks x ((mem_groupTasks x r.tasks topo.nodes).1 hx).1 l hlx

/-- Witness for C6 at the convergent-stage test plan and the local task's
`fetch_nodes` list. -/
theorem reschedule_deterministic_ordered_witness :
    convergentTestTasks = convergentTestTasks ∧
    (["dummy_local", "dummy"] : List String).Sublist ["dummy_local", "dummy"] :=
  reschedule_deterministic_ordered testTopology convergentTestPlan
    convergentTestTasks convergentTestTasks ["dummy_local", "dummy"]
    (by decide) rfl rfl rfl (by decide)

/-- C9: `create_session` refuses with `TooManyUserConnections` and leaves
the manager unchanged when the active-session count equals
`max_sessions`; otherwise it inserts one session under the fresh UUID
(so the map grows by exactly one entry) and returns a reference to it. -/
theorem create_session_characterization (mgr : SessionManager)
    (freshId typ : String)
    (hfresh : freshId ∉ mgr.activeSessions.map Prod.fst) :
    (createSession mgr freshId typ =
      if mgr.activeSessions.length = mgr.maxSessions then
        (mgr, .error (.tooManyUserConnections
          "The current accept connection has exceeded mysql_handler_thread_num config"))
      else
        ({ mgr with activeSessions :=
            mgr.activeSessions ++ [(freshId, { id := freshId })] },
         .ok { typ := typ, session := { id := freshId } })) ∧
    (mgr.activeSessions.length ≠ mgr.maxSessions →
      ((createSession mgr freshId typ).1).activeSessions.length =
        mgr.activeSessions.length + 1) := by
  constructor
  · by_cases hc : mgr.activeSessions.length = mgr.maxSessions
    · rw [createSession, if_pos hc, if_pos hc]
    · rw [createSession, if_neg hc, if_neg hc,
        insertSession_fresh freshId _ _ hfresh]
  · intro hc
    rw [createSession, if_neg hc]
    simp [insertSession_fresh freshId _ _ hfresh]

/-- A manager state with capacity two and no active session. -/
def sessionManagerSample : SessionManager := { maxSessions := 2, activeSessions := [] }

/-- Witness for C9 in the non-full branch. -/
theorem create_session_characterization_witness :
    "u1" ∉ sessionManagerSample.activeSessions.map Prod.fst ∧
    createSession sessionManagerSample "u1" "MySQL" =
      ({ maxSessions := 2, activeSessions := [("u1", { id := "u1" })] },
       .ok { typ := "MySQL", session := { id := "u1" } }) ∧
    (createSession sessionManagerSample "u1" "MySQL").1.activeSessions.length = 1 :=
  ⟨by decide,
   (create_session_characterization sessionManagerSample "u1" "MySQL"
       (by decide)).1.trans (if_neg (by decide)),
   (create_session_characterization sessionManagerSample "u1" "MySQL"
       (by decide)).2 (by decide)⟩

end FuseQuery
